import Mathlib

/-!
Shallow embedding of `pinia-simple-persist` (src/plugin.ts and the
snapshot-mapper module) and proofs about its coordination logic:
option resolution, key derivation, the debounced write scheduler, the
restore protocol with its error handling, disposal cleanup, and the
generic snapshot mapper.
-/

namespace PiniaSimplePersist

/-- A JavaScript thrown value: either an `Error` object (carrying its
message) or a non-`Error` value (carried as its `String(value)` form). -/
inductive Thrown where
  | errObj (msg : String)
  | nonError (str : String)
deriving DecidableEq, Repr

/-- Embeds `error instanceof Error ? error : new Error(String(error))`
from the catch clause of `restoreState` (plugin.ts line 59). -/
def normalizeError : Thrown → Thrown
  | .errObj m => .errObj m
  | .nonError s => .errObj s

/-- One operation on the backing key-value store, stamped with the event-loop
time at which it happened: `read` embeds `storage.getItem(key)`, `write`
embeds `storage.setItem(key, value)`. -/
inductive StorageOp where
  | read (t : Nat) (key : String)
  | write (t : Nat) (key : String) (value : String)
deriving DecidableEq, Repr

/-- The runtime view of one store's resolved persistence configuration, as
used by the closures `restoreState` / `saveState` in `createPiniaSimplePersist`
(plugin.ts lines 34-70). `σ` is the store's state, `D` the snapshot type.
Store capabilities and the serializer's deserialize direction may throw, so
they return `Except Thrown`; the hooks are modelled by their observable
behaviour: `beforeRestore` presence as a flag (it is called outside the try
block and only its invocation is observable), `afterRestore` as the outcome
of invoking it (it runs inside the try block and may throw),
`onRestoreError` presence as a flag (its invocations are logged). -/
structure PersistCfg (σ D : Type) where
  key : String
  debounce : Nat
  serializeState : σ → D
  serialize : D → String
  deserialize : String → Except Thrown D
  restoreCap : σ → D → Except Thrown σ
  hasBeforeRestore : Bool
  afterRestore : Option (Except Thrown Unit)
  hasOnRestoreError : Bool

/-- The observable world of one attachment: event-loop time, store state,
the full log of backing-store operations, hook-invocation counters, the
errors passed to `onRestoreError`, the number of `serializer.deserialize`
calls, whether the change subscription is active, the pending debounce
timer (as its absolute fire deadline; a fired or cleared timer is `none`,
observationally equal to the stale handle the source keeps since
`clearTimeout` on a fired handle is a no-op), and whether the store was
disposed. -/
structure World (σ : Type) where
  now : Nat
  st : σ
  log : List StorageOp
  beforeCalls : Nat
  afterCalls : Nat
  errorCalls : List Thrown
  deserCalls : Nat
  subscribed : Bool
  pending : Option Nat
  disposed : Bool
deriving DecidableEq, Repr

/-- The catch clause of `restoreState` (plugin.ts lines 57-63): route the
thrown value to `onRestoreError` (normalized) when configured, else rethrow. -/
def catchClause {σ D : Type} (cfg : PersistCfg σ D) (w : World σ) (e : Thrown) :
    Except Thrown (World σ) :=
  if cfg.hasOnRestoreError then
    .ok { w with errorCalls := w.errorCalls ++ [normalizeError e] }
  else
    .error e

/-- The `restoreState` closure (plugin.ts lines 47-64): call `beforeRestore`
when present, read the backing store at the resolved key, return early when
the value is absent or falsy (`if (!stored) return` — the empty string is
falsy in JavaScript), otherwise deserialize, apply via the store's
`$restoreState` capability and call `afterRestore`, with the whole try block
protected by `catchClause`. -/
def restoreState {σ D : Type} (cfg : PersistCfg σ D) (getItem : String → Option String)
    (w : World σ) : Except Thrown (World σ) :=
  let w := if cfg.hasBeforeRestore then { w with beforeCalls := w.beforeCalls + 1 } else w
  let stored := getItem cfg.key
  let w := { w with log := w.log ++ [.read w.now cfg.key] }
  match stored with
  | none => .ok w
  | some s =>
    if s = "" then .ok w
    else
      let w := { w with deserCalls := w.deserCalls + 1 }
      match cfg.deserialize s with
      | .error e => catchClause cfg w e
      | .ok data =>
        match cfg.restoreCap w.st data with
        | .error e => catchClause cfg w e
        | .ok st2 =>
          let w := { w with st := st2 }
          match cfg.afterRestore with
          | none => .ok w
          | some eff =>
            let w := { w with afterCalls := w.afterCalls + 1 }
            match eff with
            | .ok _ => .ok w
            | .error e => catchClause cfg w e

/-- The world of a freshly created store before the plugin touches it. -/
def initWorld {σ : Type} (init : σ) : World σ :=
  { now := 0, st := init, log := [], beforeCalls := 0, afterCalls := 0,
    errorCalls := [], deserCalls := 0, subscribed := false, pending := none,
    disposed := false }

/-- The plugin body applied to one store (plugin.ts lines 25-96): validate
the `$restoreState` and `$serializeState` capabilities (lines 28-29, BEFORE
the persist check), return untouched when no persist configuration is set
(line 32), otherwise subscribe to changes, wrap disposal, and finally run
`restoreState` (line 95) — so the subscription is already active during the
restore, matching the source's statement order. A thrown error is the
`Except.error` case and propagates to the caller creating the store. -/
def attach {σ D : Type} (hasRestoreCap hasSerializeCap : Bool)
    (persist : Option (PersistCfg σ D)) (getItem : String → Option String)
    (init : σ) : Except Thrown (World σ) :=
  if !hasRestoreCap then
    .error (.errObj "A store using pinia-simple-persist must have a $restoreState() method")
  else if !hasSerializeCap then
    .error (.errObj "A store using pinia-simple-persist must have a $serializeState() method")
  else
    match persist with
    | none => .ok (initWorld init)
    | some cfg => restoreState cfg getItem { initWorld init with subscribed := true }

/-- An event delivered to an attached store after creation: a state
mutation (which fires the change notification when subscribed), one tick
of the event-loop clock (timers whose deadline is reached fire), or a call
to the store's `$dispose`. -/
inductive Event (σ : Type) where
  | mutate (f : σ → σ)
  | tick
  | dispose

/-- The `saveState` closure (plugin.ts lines 66-70): read the current
snapshot via `$serializeState`, encode it with the serializer, and write it
to the backing store at the resolved key. -/
def saveState {σ D : Type} (cfg : PersistCfg σ D) (w : World σ) : World σ :=
  { w with log := w.log ++ [.write w.now cfg.key (cfg.serialize (cfg.serializeState w.st))] }

/-- One step of the attachment's post-creation behaviour.
On `mutate`, the state changes and — when the change subscription is active
and persistence is configured — the subscription callback runs `finalSave`
(plugin.ts lines 72-84): a synchronous `saveState` when `debounce` is falsy
(0), else `debouncedFn` of `makeDebounce` (lines 105-110), which clears any
pending timer and schedules a fresh full-length one.
On `tick`, time advances one unit and a pending timer whose deadline is
reached fires its callback — `saveState` (line 108).
On `dispose`, the wrapped `$dispose` (lines 87-92) unsubscribes, runs the
debounce `cleanup` (lines 112-117, clearing any pending timer) and delegates
to the original disposal; a store without persist configuration was never
wrapped, so only the original disposal runs. -/
def step {σ D : Type} (cfg : Option (PersistCfg σ D)) (w : World σ) :
    Event σ → World σ
  | .mutate f =>
    let w := { w with st := f w.st }
    match cfg with
    | none => w
    | some c =>
      if w.subscribed then
        if c.debounce = 0 then saveState c w
        else { w with pending := some (w.now + c.debounce) }
      else w
  | .tick =>
    let w := { w with now := w.now + 1 }
    match cfg with
    | none => w
    | some c =>
      match w.pending with
      | none => w
      | some deadline =>
        if deadline ≤ w.now then { saveState c w with pending := none } else w
  | .dispose =>
    match cfg with
    | none => { w with disposed := true }
    | some _ => { w with subscribed := false, pending := none, disposed := true }

/-- Run a sequence of post-creation events through `step`. -/
def run {σ D : Type} (cfg : Option (PersistCfg σ D)) (w : World σ)
    (es : List (Event σ)) : World σ :=
  es.foldl (step cfg) w

/-- The reference behaviour of a bare store with no coordinator attached:
mutations update the state, ticks and disposal do not touch it. -/
def runPlain {σ : Type} (init : σ) (es : List (Event σ)) : σ :=
  es.foldl (fun s e => match e with | .mutate f => f s | _ => s) init

/-- A list of `n` clock ticks. -/
def ticks {σ : Type} (n : Nat) : List (Event σ) :=
  List.replicate n .tick

/-- A debounce window: for each `(gap, f)` in `parts`, wait `gap` ticks
then mutate by `f`; after the last mutation stay quiet for `quiet` ticks. -/
def windowTrace {σ : Type} (parts : List (Nat × (σ → σ))) (quiet : Nat) :
    List (Event σ) :=
  (parts.map fun p => ticks p.1 ++ [Event.mutate p.2]).flatten ++ ticks quiet

/-- The successive mutations of a window applied in order. -/
def foldMuts {σ : Type} (parts : List (Nat × (σ → σ))) (s : σ) : σ :=
  parts.foldl (fun s p => p.2 s) s

/-- Total time from the start of a window to its last mutation. -/
def gapSum {σ : Type} (parts : List (Nat × (σ → σ))) : Nat :=
  (parts.map Prod.fst).sum

/-! ### Option resolution (plugin.ts lines 22-23 and 34-45) -/

/-- The global options accepted by `createPiniaSimplePersist`
(`GlobalSimplePersistOptions`): every field optional, `none` modelling an
absent property; `makeKey` exists only at the global level. `St`, `Se`,
`Hk`, `Eh` are the types of storage implementations, serializers, hooks and
the error handler. -/
structure GlobalSimplePersistOptions (St Se Hk Eh : Type) where
  storage : Option St
  serializer : Option Se
  debounce : Option Nat
  beforeRestore : Option Hk
  afterRestore : Option Hk
  onRestoreError : Option Eh
  makeKey : Option (String → String)

/-- The per-store options (`SimplePersistOptions`): the base fields plus
`key`; no `makeKey`. -/
structure SimplePersistOptions (St Se Hk Eh : Type) where
  key : Option String
  storage : Option St
  serializer : Option Se
  debounce : Option Nat
  beforeRestore : Option Hk
  afterRestore : Option Hk
  onRestoreError : Option Eh

/-- One field of the object spread `{ ...globalOptions, ...persist }`
(plugin.ts line 45): the later object's property wins when present. -/
def spreadField {α : Type} (base override : Option α) : Option α :=
  match override with
  | some v => some v
  | none => base

/-- The spread `{ ...globalOptions, ...persist }` restricted to the fields
the destructuring on lines 34-44 reads. `key` comes from `persist` alone
since the global options carry no `key` property. -/
def mergedOptions {St Se Hk Eh : Type} (g : GlobalSimplePersistOptions St Se Hk Eh)
    (p : SimplePersistOptions St Se Hk Eh) : SimplePersistOptions St Se Hk Eh :=
  { key := p.key
    storage := spreadField g.storage p.storage
    serializer := spreadField g.serializer p.serializer
    debounce := spreadField g.debounce p.debounce
    beforeRestore := spreadField g.beforeRestore p.beforeRestore
    afterRestore := spreadField g.afterRestore p.afterRestore
    onRestoreError := spreadField g.onRestoreError p.onRestoreError }

/-- The effective per-store configuration after the destructuring defaults
(plugin.ts lines 34-45). -/
structure EffectiveConfig (St Se Hk Eh : Type) where
  key : String
  storage : St
  serializer : Se
  debounce : Nat
  beforeRestore : Option Hk
  afterRestore : Option Hk
  onRestoreError : Option Eh

/-- The default key factory `(id: string) => ` + backtick-template
`pinia-id` (plugin.ts line 23). -/
def defaultMakeKey (id : String) : String := "pinia-" ++ id

/-- Option resolution: `makeKey` is the global one or the default (line 23);
each destructured field takes the spread-merged value when defined, else its
built-in default — `makeKey(store.$id)` for `key`, the platform `localStorage`
for `storage`, the JSON codec for `serializer`, `0` for `debounce`, and
absent for the hooks and the error handler (lines 34-44). `localStorage` and
`jsonSerializer` stand for those two ambient platform values. -/
def resolveOptions {St Se Hk Eh : Type} (localStorage : St) (jsonSerializer : Se)
    (g : GlobalSimplePersistOptions St Se Hk Eh) (p : SimplePersistOptions St Se Hk Eh)
    (storeId : String) : EffectiveConfig St Se Hk Eh :=
  let makeKey := g.makeKey.getD defaultMakeKey
  let merged := mergedOptions g p
  { key := merged.key.getD (makeKey storeId)
    storage := merged.storage.getD localStorage
    serializer := merged.serializer.getD jsonSerializer
    debounce := merged.debounce.getD 0
    beforeRestore := merged.beforeRestore
    afterRestore := merged.afterRestore
    onRestoreError := merged.onRestoreError }

/-! ### Snapshot mapper (`makeSimplePersistMapper`, unnamed module) -/

/-- A snapshot value: a primitive, or a plain object given by its shallow
own properties. -/
inductive Val (α : Type) where
  | prim (a : α)
  | obj (props : List (String × α))
deriving DecidableEq, Repr

/-- One tracked cell of the mapper's `state` record: a Vue `Ref` (isRef), a
reactive object (isReactive, with its shallow properties), or a plain value
that is neither — the caller-managed escape hatch. -/
inductive Cell (α : Type) where
  | ref (v : Val α)
  | reactive (props : List (String × α))
  | plain (v : Val α)
deriving DecidableEq, Repr

/-- First-match lookup of a key in an association list, embedding JavaScript
property access on a plain object. -/
def lookupKey {β : Type} (k : String) : List (String × β) → Option β
  | [] => none
  | kv :: rest => if kv.1 = k then some kv.2 else lookupKey k rest

/-- Assignment of one property, as `target[k] = v`: update it in place when
present, append it otherwise. -/
def setProp {α : Type} (props : List (String × α)) (k : String) (v : α) :
    List (String × α) :=
  if (lookupKey k props).isSome then
    props.map fun kv => if kv.1 = k then (k, v) else kv
  else
    props ++ [(k, v)]

/-- `Object.assign(target, src)`: copy every own enumerable property of
`src` onto `target`; a primitive source contributes no such properties. -/
def objAssign {α : Type} (target : List (String × α)) : Val α → List (String × α)
  | .prim _ => target
  | .obj src => src.foldl (fun acc kv => setProp acc kv.1 kv.2) target

/-- The per-field body of the mapper's `$restoreState` loop for a field
present in `data`: replace-by-value for a `Ref`, `Object.assign` merge for a
reactive object, and no write at all for a plain cell (neither branch of the
`if` applies). -/
def applyRestore {α : Type} (cell : Cell α) (v : Val α) : Cell α :=
  match cell with
  | .ref _ => .ref v
  | .reactive props => .reactive (objAssign props v)
  | .plain w => .plain w

/-- The mapper's `$restoreState(data)`: iterate over the tracked `state`
keys, skip any key not present in `data` (`if (!(key in data)) continue`),
and apply `applyRestore` to the rest. Keys of `data` not tracked in `state`
are never visited. -/
def restoreStateMapper {α : Type} (state : List (String × Cell α))
    (data : List (String × Val α)) : List (String × Cell α) :=
  state.map fun kc =>
    match lookupKey kc.1 data with
    | none => kc
    | some v => (kc.1, applyRestore kc.2 v)

/-! ### Concrete instances used to evaluate the development -/

/-- A concrete configuration over `Nat` state and snapshots: no hooks, no
error handler, no debouncing. -/
def cfgPlain : PersistCfg Nat Nat :=
  { key := "pinia-test", debounce := 0,
    serializeState := fun s => s,
    serialize := fun d => toString d,
    deserialize := fun s =>
      if s = "42" then .ok 42 else .error (.nonError s),
    restoreCap := fun _ d => .ok d,
    hasBeforeRestore := false, afterRestore := none, hasOnRestoreError := false }

/-- `cfgPlain` with the `onRestoreError` handler configured. -/
def cfgHandled : PersistCfg Nat Nat :=
  { cfgPlain with hasOnRestoreError := true }

/-- `cfgPlain` with an `afterRestore` hook that throws, and the handler
configured. -/
def cfgAfterThrows : PersistCfg Nat Nat :=
  { cfgPlain with afterRestore := some (.error (.errObj "after failed")),
                  hasOnRestoreError := true }

/-- `cfgPlain` with a 2-tick debounce window. -/
def cfgDebounced : PersistCfg Nat Nat :=
  { cfgPlain with debounce := 2 }

/-- A concrete freshly attached world over `Nat` state. -/
def wSub : World Nat :=
  { initWorld 3 with subscribed := true }

/-- Concrete global options for evaluating resolution: a serializer and an
`afterRestore` hook set globally, everything else absent. -/
def gOptsW : GlobalSimplePersistOptions Nat Nat Nat Nat :=
  { storage := none, serializer := some 201, debounce := none,
    beforeRestore := none, afterRestore := some 7, onRestoreError := none,
    makeKey := none }

/-- Concrete per-store options for evaluating resolution: only a storage
override set. -/
def pOptsW : SimplePersistOptions Nat Nat Nat Nat :=
  { key := none, storage := some 5, serializer := none, debounce := none,
    beforeRestore := none, afterRestore := none, onRestoreError := none }

/-- The spec's concrete mapper example: a state tracking `count` and `name`. -/
def mapperStateW : List (String × Cell String) :=
  [("count", .ref (.prim "1")), ("name", .ref (.prim "original"))]

/-- The spec's concrete restore input: only `count` present. -/
def mapperDataW : List (String × Val String) :=
  [("count", .prim "42")]

/-! ## Theorems -/

/-- Claim C6: for every attachment whose backing store holds no record at
the resolved key, restore applies no state (the store keeps its initial
values), never calls `afterRestore`, never deserializes and raises nothing,
and the attachment ends with the change subscription active. -/
theorem c6_restore_absent_record {σ D : Type} (cfg : PersistCfg σ D)
    (getItem : String → Option String) (init : σ)
    (h : getItem cfg.key = none) :
    ∃ w, attach true true (some cfg) getItem init = .ok w ∧
      w.st = init ∧ w.afterCalls = 0 ∧ w.deserCalls = 0 ∧
      w.errorCalls = [] ∧ w.subscribed = true := by
  cases hb : cfg.hasBeforeRestore <;>
    simp [attach, restoreState, initWorld, h, hb]

/-- Witness for C6 at a concrete configuration and empty backing store. -/
theorem c6_restore_absent_record_witness :
    ∃ w, attach true true (some cfgPlain) (fun _ => none) 7 = .ok w ∧
      w.st = 7 ∧ w.afterCalls = 0 ∧ w.deserCalls = 0 ∧
      w.errorCalls = [] ∧ w.subscribed = true :=
  c6_restore_absent_record cfgPlain (fun _ => none) 7 rfl

/-- Claim C10: a persisted record equal to the empty string is treated
exactly like an absent record — `if (!stored) return` tests truthiness, and
the empty string is falsy — so restore returns without calling the
deserializer, applying state, or invoking `afterRestore`. -/
theorem c10_empty_string_like_absent {σ D : Type} (cfg : PersistCfg σ D)
    (g1 g2 : String → Option String) (init : σ)
    (h1 : g1 cfg.key = some "") (h2 : g2 cfg.key = none) :
    attach true true (some cfg) g1 init = attach true true (some cfg) g2 init ∧
    ∃ w, attach true true (some cfg) g1 init = .ok w ∧
      w.deserCalls = 0 ∧ w.st = init ∧ w.afterCalls = 0 ∧ w.errorCalls = [] := by
  cases hb : cfg.hasBeforeRestore <;>
    simp [attach, restoreState, initWorld, h1, h2, hb]

/-- Witness for C10 at a concrete configuration. -/
theorem c10_empty_string_like_absent_witness :
    attach true true (some cfgPlain) (fun _ => some "") 7 =
      attach true true (some cfgPlain) (fun _ => none) 7 ∧
    ∃ w, attach true true (some cfgPlain) (fun _ => some "") 7 = .ok w ∧
      w.deserCalls = 0 ∧ w.st = 7 ∧ w.afterCalls = 0 ∧ w.errorCalls = [] :=
  c10_empty_string_like_absent cfgPlain (fun _ => some "") (fun _ => none) 7 rfl rfl

/-- Claim C2: when the backing store holds a record at the resolved key and
`serializer.deserialize` throws on it, then with `onRestoreError` configured
the handler is invoked exactly once with a normalized error value (an
`Error` object), no state is applied, `afterRestore` is not invoked, and
store creation succeeds; without the handler the error propagates to the
caller initiating store creation. -/
theorem c2_deserialize_error {σ D : Type} (cfg : PersistCfg σ D)
    (getItem : String → Option String) (init : σ) (s : String) (e : Thrown)
    (hs : getItem cfg.key = some s) (hne : s ≠ "")
    (hde : cfg.deserialize s = .error e) :
    (cfg.hasOnRestoreError = true →
      ∃ w, attach true true (some cfg) getItem init = .ok w ∧
        w.errorCalls = [normalizeError e] ∧ (∃ m, normalizeError e = .errObj m) ∧
        w.st = init ∧ w.afterCalls = 0) ∧
    (cfg.hasOnRestoreError = false →
      attach true true (some cfg) getItem init = .error e) := by
  constructor <;> intro hh <;>
    cases hb : cfg.hasBeforeRestore <;>
      simp [attach, restoreState, catchClause, initWorld, hs, hne, hde, hh, hb] <;>
        cases e <;> simp [normalizeError]

/-- Witness for C2: a malformed record with the handler configured. -/
theorem c2_deserialize_error_witness :
    (cfgHandled.hasOnRestoreError = true →
      ∃ w, attach true true (some cfgHandled) (fun _ => some "bad") 7 = .ok w ∧
        w.errorCalls = [normalizeError (.nonError "bad")] ∧
        (∃ m, normalizeError (.nonError "bad") = .errObj m) ∧
        w.st = 7 ∧ w.afterCalls = 0) ∧
    (cfgHandled.hasOnRestoreError = false →
      attach true true (some cfgHandled) (fun _ => some "bad") 7 =
        .error (.nonError "bad")) :=
  c2_deserialize_error cfgHandled (fun _ => some "bad") 7 "bad" (.nonError "bad")
    rfl (by decide) (by rfl)

/-- Claim C9: the try block of `restoreState` also encloses the store's
`$restoreState` capability and the `afterRestore` hook, so exceptions thrown
by either are caught, normalized, and routed to `onRestoreError` when
configured (and in the `afterRestore` case the state has already been
applied), or rethrown otherwise. -/
theorem c9_catch_covers_apply_and_after {σ D : Type} (cfg : PersistCfg σ D)
    (getItem : String → Option String) (init : σ) (s : String) (data : D)
    (hs : getItem cfg.key = some s) (hne : s ≠ "")
    (hde : cfg.deserialize s = .ok data) :
    (∀ e, cfg.restoreCap init data = .error e →
      (cfg.hasOnRestoreError = true →
        ∃ w, attach true true (some cfg) getItem init = .ok w ∧
          w.errorCalls = [normalizeError e] ∧ w.st = init ∧ w.afterCalls = 0) ∧
      (cfg.hasOnRestoreError = false →
        attach true true (some cfg) getItem init = .error e)) ∧
    (∀ st2 e, cfg.restoreCap init data = .ok st2 →
      cfg.afterRestore = some (.error e) →
      (cfg.hasOnRestoreError = true →
        ∃ w, attach true true (some cfg) getItem init = .ok w ∧
          w.errorCalls = [normalizeError e] ∧ w.st = st2 ∧ w.afterCalls = 1) ∧
      (cfg.hasOnRestoreError = false →
        attach true true (some cfg) getItem init = .error e)) := by
  constructor
  · intro e hre
    constructor <;> intro hh <;>
      cases hb : cfg.hasBeforeRestore <;>
        simp [attach, restoreState, catchClause, initWorld, hs, hne, hde, hre, hh, hb]
  · intro st2 e hre hafter
    constructor <;> intro hh <;>
      cases hb : cfg.hasBeforeRestore <;>
        simp [attach, restoreState, catchClause, initWorld, hs, hne, hde, hre, hafter,
          hh, hb]

/-- Witness for C9: an `afterRestore` hook that throws after the state was
already applied, with the handler configured. -/
theorem c9_catch_covers_apply_and_after_witness :
    (cfgAfterThrows.hasOnRestoreError = true →
      ∃ w, attach true true (some cfgAfterThrows) (fun _ => some "42") 7 = .ok w ∧
        w.errorCalls = [normalizeError (.errObj "after failed")] ∧
        w.st = 42 ∧ w.afterCalls = 1) ∧
    (cfgAfterThrows.hasOnRestoreError = false →
      attach true true (some cfgAfterThrows) (fun _ => some "42") 7 =
        .error (.errObj "after failed")) :=
  (c9_catch_covers_apply_and_after cfgAfterThrows (fun _ => some "42") 7 "42" 42
    rfl (by decide) (by rfl)).2 42 (.errObj "after failed") rfl rfl

/-- Claim C7: with a debounce window of 0, each change notification runs
the save synchronously — the mutation step itself appends exactly one write
of the current snapshot at the resolved key, and no timer is involved (the
pending-timer field is untouched). -/
theorem c7_zero_debounce_synchronous {σ D : Type} (cfg : PersistCfg σ D)
    (w : World σ) (f : σ → σ)
    (hsub : w.subscribed = true) (hd : cfg.debounce = 0) :
    step (some cfg) w (.mutate f) =
      { w with st := f w.st,
               log := w.log ++ [.write w.now cfg.key
                 (cfg.serialize (cfg.serializeState (f w.st)))] } := by
  simp [step, saveState, hsub, hd]

/-- Witness for C7 at a concrete zero-debounce configuration. -/
theorem c7_zero_debounce_synchronous_witness :
    step (some cfgPlain) wSub (.mutate fun n => n + 1) =
      { wSub with st := (fun n => n + 1) wSub.st,
                  log := wSub.log ++ [.write wSub.now cfgPlain.key
                    (cfgPlain.serialize (cfgPlain.serializeState
                      ((fun n => n + 1) wSub.st)))] } :=
  c7_zero_debounce_synchronous cfgPlain wSub (fun n => n + 1) rfl rfl

/-- Field-wise equality of two worlds gives equality. -/
theorem World.ext' {σ : Type} {w1 w2 : World σ}
    (h1 : w1.now = w2.now) (h2 : w1.st = w2.st) (h3 : w1.log = w2.log)
    (h4 : w1.beforeCalls = w2.beforeCalls) (h5 : w1.afterCalls = w2.afterCalls)
    (h6 : w1.errorCalls = w2.errorCalls) (h7 : w1.deserCalls = w2.deserCalls)
    (h8 : w1.subscribed = w2.subscribed) (h9 : w1.pending = w2.pending)
    (h10 : w1.disposed = w2.disposed) : w1 = w2 := by
  cases w1; cases w2; simp_all

/-- Running a concatenation of event lists runs them in sequence. -/
theorem run_append {σ D : Type} (cfg : Option (PersistCfg σ D)) (w : World σ)
    (l1 l2 : List (Event σ)) :
    run cfg w (l1 ++ l2) = run cfg (run cfg w l1) l2 := by
  simp [run, List.foldl_append]

/-- With no persist configuration the plugin attached nothing, so events
only move the bare store state and the clock. -/
theorem run_none_frame {σ D : Type} (es : List (Event σ)) : ∀ w : World σ,
    (run (D := D) none w es).log = w.log ∧
    (run (D := D) none w es).st = runPlain w.st es ∧
    (run (D := D) none w es).beforeCalls = w.beforeCalls ∧
    (run (D := D) none w es).afterCalls = w.afterCalls ∧
    (run (D := D) none w es).errorCalls = w.errorCalls := by
  induction es with
  | nil => intro w; simp [run, runPlain]
  | cons e rest ih =>
    intro w
    have hmain : ∀ w2 : World σ, run (D := D) none w2 (e :: rest) =
        run (D := D) none (step none w2 e) rest := fun _ => rfl
    cases e with
    | mutate f =>
      rw [hmain]
      refine ⟨(ih _).1, ?_, (ih _).2.2.1, (ih _).2.2.2.1, (ih _).2.2.2.2⟩
      have := (ih ({ w with st := f w.st } : World σ)).2.1
      simpa [step, runPlain] using this
    | tick =>
      rw [hmain]
      refine ⟨(ih _).1, ?_, (ih _).2.2.1, (ih _).2.2.2.1, (ih _).2.2.2.2⟩
      have := (ih ({ w with now := w.now + 1 } : World σ)).2.1
      simpa [step, runPlain] using this
    | dispose =>
      rw [hmain]
      refine ⟨(ih _).1, ?_, (ih _).2.2.1, (ih _).2.2.2.1, (ih _).2.2.2.2⟩
      have := (ih ({ w with disposed := true } : World σ)).2.1
      simpa [step, runPlain] using this

/-- Counterexample to claim C1 as stated: a store created with no persist
configuration but lacking the `$restoreState` capability raises the
capability-validation error at creation, because the plugin validates
capabilities before checking for a persist configuration. -/
theorem c1_counterexample :
    attach (σ := Nat) (D := Nat) false true none (fun _ => none) 0 =
      .error (.errObj
        "A store using pinia-simple-persist must have a $restoreState() method") :=
  rfl

/-- Claim C1 (amended to stores exposing both capabilities): with no
persist configuration, creation succeeds and the coordinator has no
observable effect — no backing-store operation ever occurs over any event
sequence, no hook is ever invoked, and the store state evolves exactly as
with no coordinator attached. -/
theorem c1_no_persist_inert {σ D : Type} (getItem : String → Option String)
    (init : σ) (es : List (Event σ)) :
    attach (D := D) true true none getItem init = .ok (initWorld init) ∧
    (run (D := D) none (initWorld init) es).log = [] ∧
    (run (D := D) none (initWorld init) es).st = runPlain init es ∧
    (run (D := D) none (initWorld init) es).beforeCalls = 0 ∧
    (run (D := D) none (initWorld init) es).afterCalls = 0 ∧
    (run (D := D) none (initWorld init) es).errorCalls = [] := by
  have h := run_none_frame (D := D) es (initWorld init)
  exact ⟨rfl, by simpa [initWorld] using h.1, by simpa [initWorld] using h.2.1,
    by simpa [initWorld] using h.2.2.1, by simpa [initWorld] using h.2.2.2.1,
    by simpa [initWorld] using h.2.2.2.2⟩

/-- A world whose subscription is gone and whose timer is cleared stays
silent: no event can ever add a storage operation or a hook invocation. -/
theorem run_unsubscribed_inert {σ D : Type} (c : PersistCfg σ D)
    (es : List (Event σ)) : ∀ w : World σ,
    w.subscribed = false → w.pending = none →
    (run (some c) w es).log = w.log ∧
    (run (some c) w es).beforeCalls = w.beforeCalls ∧
    (run (some c) w es).afterCalls = w.afterCalls ∧
    (run (some c) w es).errorCalls = w.errorCalls ∧
    (run (some c) w es).subscribed = false ∧
    (run (some c) w es).pending = none := by
  induction es with
  | nil => intro w h1 h2; simp [run, h1, h2]
  | cons e rest ih =>
    intro w h1 h2
    have hmain : run (some c) w (e :: rest) =
        run (some c) (step (some c) w e) rest := rfl
    rw [hmain]
    cases e with
    | mutate f =>
      have hstep : step (some c) w (.mutate f) = { w with st := f w.st } := by
        simp [step, h1]
      rw [hstep]
      exact ih _ h1 h2
    | tick =>
      have hstep : step (some c) w .tick = { w with now := w.now + 1 } := by
        simp [step, h2]
      rw [hstep]
      exact ih _ h1 h2
    | dispose =>
      have hstep : step (some c) w .dispose =
          { w with subscribed := false, pending := none, disposed := true } := by
        simp [step]
      rw [hstep]
      exact ih _ rfl rfl

/-- Claim C4: the wrapped disposal unsubscribes the change listener and
synchronously cancels any pending scheduled save (before delegating to the
original disposal, whose effect is the `disposed` flag), and from then on no
event sequence — ticks past the debounce window included — ever produces a
backing-store operation or a hook invocation for the attachment. -/
theorem c4_dispose_cancels_everything {σ D : Type} (c : PersistCfg σ D)
    (w : World σ) :
    (step (some c) w .dispose).subscribed = false ∧
    (step (some c) w .dispose).pending = none ∧
    (step (some c) w .dispose).disposed = true ∧
    (step (some c) w .dispose).log = w.log ∧
    ∀ es : List (Event σ),
      (run (some c) (step (some c) w .dispose) es).log = w.log ∧
      (run (some c) (step (some c) w .dispose) es).beforeCalls = w.beforeCalls ∧
      (run (some c) (step (some c) w .dispose) es).afterCalls = w.afterCalls ∧
      (run (some c) (step (some c) w .dispose) es).errorCalls = w.errorCalls := by
  have hstep : step (some c) w .dispose =
      { w with subscribed := false, pending := none, disposed := true } := by
    simp [step]
  refine ⟨by rw [hstep], by rw [hstep], by rw [hstep], by rw [hstep], ?_⟩
  intro es
  have h := run_unsubscribed_inert c es (step (some c) w .dispose)
    (by rw [hstep]) (by rw [hstep])
  rw [hstep] at h ⊢
  exact ⟨h.1, h.2.1, h.2.2.1, h.2.2.2.1⟩

/-- Claim C5: each field of the effective configuration follows the
precedence store-level value, else global value, else built-in default —
`makeKey(storeId)` for the key (default `makeKey` being `"pinia-" ++ id`),
the platform default storage, the JSON codec, a 0 debounce window, and
absent hooks and handler. -/
theorem c5_resolution_precedence {St Se Hk Eh : Type} (localStorage : St)
    (jsonSerializer : Se) (g : GlobalSimplePersistOptions St Se Hk Eh)
    (p : SimplePersistOptions St Se Hk Eh) (storeId : String) :
    ((∀ k, p.key = some k →
        (resolveOptions localStorage jsonSerializer g p storeId).key = k) ∧
     (p.key = none → ∀ mk, g.makeKey = some mk →
        (resolveOptions localStorage jsonSerializer g p storeId).key = mk storeId) ∧
     (p.key = none → g.makeKey = none →
        (resolveOptions localStorage jsonSerializer g p storeId).key =
          "pinia-" ++ storeId)) ∧
    ((∀ v, p.storage = some v →
        (resolveOptions localStorage jsonSerializer g p storeId).storage = v) ∧
     (p.storage = none → ∀ v, g.storage = some v →
        (resolveOptions localStorage jsonSerializer g p storeId).storage = v) ∧
     (p.storage = none → g.storage = none →
        (resolveOptions localStorage jsonSerializer g p storeId).storage =
          localStorage)) ∧
    ((∀ v, p.serializer = some v →
        (resolveOptions localStorage jsonSerializer g p storeId).serializer = v) ∧
     (p.serializer = none → ∀ v, g.serializer = some v →
        (resolveOptions localStorage jsonSerializer g p storeId).serializer = v) ∧
     (p.serializer = none → g.serializer = none →
        (resolveOptions localStorage jsonSerializer g p storeId).serializer =
          jsonSerializer)) ∧
    ((∀ v, p.debounce = some v →
        (resolveOptions localStorage jsonSerializer g p storeId).debounce = v) ∧
     (p.debounce = none → ∀ v, g.debounce = some v →
        (resolveOptions localStorage jsonSerializer g p storeId).debounce = v) ∧
     (p.debounce = none → g.debounce = none →
        (resolveOptions localStorage jsonSerializer g p storeId).debounce = 0)) ∧
    ((∀ v, p.beforeRestore = some v →
        (resolveOptions localStorage jsonSerializer g p storeId).beforeRestore =
          some v) ∧
     (p.beforeRestore = none → ∀ v, g.beforeRestore = some v →
        (resolveOptions localStorage jsonSerializer g p storeId).beforeRestore =
          some v) ∧
     (p.beforeRestore = none → g.beforeRestore = none →
        (resolveOptions localStorage jsonSerializer g p storeId).beforeRestore =
          none)) ∧
    ((∀ v, p.afterRestore = some v →
        (resolveOptions localStorage jsonSerializer g p storeId).afterRestore =
          some v) ∧
     (p.afterRestore = none → ∀ v, g.afterRestore = some v →
        (resolveOptions localStorage jsonSerializer g p storeId).afterRestore =
          some v) ∧
     (p.afterRestore = none → g.afterRestore = none →
        (resolveOptions localStorage jsonSerializer g p storeId).afterRestore =
          none)) ∧
    ((∀ v, p.onRestoreError = some v →
        (resolveOptions localStorage jsonSerializer g p storeId).onRestoreError =
          some v) ∧
     (p.onRestoreError = none → ∀ v, g.onRestoreError = some v →
        (resolveOptions localStorage jsonSerializer g p storeId).onRestoreError =
          some v) ∧
     (p.onRestoreError = none → g.onRestoreError = none →
        (resolveOptions localStorage jsonSerializer g p storeId).onRestoreError =
          none)) := by
  refine ⟨⟨?_, ?_, ?_⟩, ⟨?_, ?_, ?_⟩, ⟨?_, ?_, ?_⟩, ⟨?_, ?_, ?_⟩, ⟨?_, ?_, ?_⟩,
    ⟨?_, ?_, ?_⟩, ⟨?_, ?_, ?_⟩⟩ <;>
    intros <;>
    simp_all [resolveOptions, mergedOptions, spreadField, defaultMakeKey]

/-- Witness for C5: a store-level storage override wins, a global serializer
fills in, and the built-in defaults supply the debounce window, the key and
the absent handler. -/
theorem c5_resolution_precedence_witness :
    (resolveOptions 100 200 gOptsW pOptsW "cart").storage = 5 ∧
    (resolveOptions 100 200 gOptsW pOptsW "cart").serializer = 201 ∧
    (resolveOptions 100 200 gOptsW pOptsW "cart").debounce = 0 ∧
    (resolveOptions 100 200 gOptsW pOptsW "cart").key = "pinia-" ++ "cart" ∧
    (resolveOptions 100 200 gOptsW pOptsW "cart").afterRestore = some 7 ∧
    (resolveOptions 100 200 gOptsW pOptsW "cart").onRestoreError = none := by
  have h := c5_resolution_precedence 100 200 gOptsW pOptsW "cart"
  exact ⟨h.2.1.1 5 rfl, (h.2.2.1).2.1 rfl 201 rfl, (h.2.2.2.1).2.2 rfl rfl,
    (h.1).2.2 rfl rfl, (h.2.2.2.2.2.1).2.1 rfl 7 rfl, (h.2.2.2.2.2.2).2.2 rfl rfl⟩

/-- Lookup through the mapper's restore: a tracked field is transformed by
`applyRestore` exactly when its key is present in `data`, untouched
otherwise. -/
theorem lookupKey_restoreStateMapper {α : Type} (data : List (String × Val α)) :
    ∀ (state : List (String × Cell α)) (k : String),
    lookupKey k (restoreStateMapper state data) =
      match lookupKey k state with
      | none => none
      | some cell =>
        match lookupKey k data with
        | none => some cell
        | some v => some (applyRestore cell v) := by
  intro state
  induction state with
  | nil => intro k; simp [restoreStateMapper, lookupKey]
  | cons kc rest ih =>
    intro k
    by_cases hk : kc.1 = k
    · subst hk
      cases hd : lookupKey kc.1 data <;>
        simp [restoreStateMapper, lookupKey, hd]
    · cases hd : lookupKey kc.1 data <;>
        simp only [restoreStateMapper, List.map_cons, lookupKey, hd, if_neg hk] <;>
        simpa [restoreStateMapper] using ih k

/-- The mapper's restore never adds, drops or reorders tracked fields. -/
theorem restoreStateMapper_keys {α : Type} (state : List (String × Cell α))
    (data : List (String × Val α)) :
    (restoreStateMapper state data).map Prod.fst = state.map Prod.fst := by
  induction state with
  | nil => rfl
  | cons kc rest ih =>
    cases hd : lookupKey kc.1 data <;>
      simp only [restoreStateMapper, List.map_cons, hd] <;>
      simpa [restoreStateMapper] using ih

/-- Claim C8: the mapper's `$restoreState` writes exactly the tracked
mutable fields whose keys are present in the input — replace-by-value for a
`Ref` cell, shallow `Object.assign` merge for a reactive cell, and nothing
for a plain cell — and leaves every field whose key is absent from the
input unchanged; no field is implicitly reset and the tracked field set is
preserved. -/
theorem c8_restore_mapper_frame {α : Type} (state : List (String × Cell α))
    (data : List (String × Val α)) (k : String) :
    ((restoreStateMapper state data).map Prod.fst = state.map Prod.fst) ∧
    (lookupKey k data = none →
      lookupKey k (restoreStateMapper state data) = lookupKey k state) ∧
    (∀ v, lookupKey k data = some v →
      (∀ w, lookupKey k state = some (.ref w) →
        lookupKey k (restoreStateMapper state data) = some (.ref v)) ∧
      (∀ ps, lookupKey k state = some (.reactive ps) →
        lookupKey k (restoreStateMapper state data) =
          some (.reactive (objAssign ps v))) ∧
      (∀ w, lookupKey k state = some (.plain w) →
        lookupKey k (restoreStateMapper state data) = some (.plain w))) := by
  refine ⟨restoreStateMapper_keys state data, ?_, ?_⟩
  · intro hd
    rw [lookupKey_restoreStateMapper]
    cases hs : lookupKey k state <;> simp [hd]
  · intro v hv
    refine ⟨?_, ?_, ?_⟩ <;> intro x hx <;>
      rw [lookupKey_restoreStateMapper] <;> simp [hv, hx, applyRestore]

/-- Witness for C8: restoring `\x7bcount: 42\x7d` over a mapper tracking
`count` and `name` sets `count` and leaves `name` untouched. -/
theorem c8_restore_mapper_frame_witness :
    lookupKey "name" (restoreStateMapper mapperStateW mapperDataW) =
      lookupKey "name" mapperStateW ∧
    lookupKey "count" (restoreStateMapper mapperStateW mapperDataW) =
      some (.ref (.prim "42")) :=
  ⟨(c8_restore_mapper_frame mapperStateW mapperDataW "name").2.1 rfl,
   ((c8_restore_mapper_frame mapperStateW mapperDataW "count").2.2
     (.prim "42") rfl).1 (.prim "1") rfl⟩

/-- A tick with no pending timer only advances the clock. -/
theorem step_tick_none {σ D : Type} (c : PersistCfg σ D) (w : World σ)
    (h : w.pending = none) :
    step (some c) w .tick = { w with now := w.now + 1 } := by
  simp [step, h]

/-- A tick strictly before the pending deadline only advances the clock. -/
theorem step_tick_early {σ D : Type} (c : PersistCfg σ D) (w : World σ)
    (dl : Nat) (h : w.pending = some dl) (hlt : w.now + 1 < dl) :
    step (some c) w .tick = { w with now := w.now + 1 } := by
  simp [step, h, Nat.not_le.mpr hlt]

/-- Ticks with no pending timer only advance the clock. -/
theorem run_ticks_none {σ D : Type} (c : PersistCfg σ D) :
    ∀ (n : Nat) (w : World σ), w.pending = none →
    run (some c) w (ticks n) = { w with now := w.now + n } := by
  intro n
  induction n with
  | zero =>
    intro w h
    apply World.ext' <;> simp [run, ticks]
  | succ m ih =>
    intro w h
    have h1 : (ticks (m + 1) : List (Event σ)) = Event.tick :: ticks m := by
      simp [ticks, List.replicate_succ]
    have h2 : run (some c) w (Event.tick :: ticks m) =
        run (some c) (step (some c) w .tick) (ticks m) := rfl
    rw [h1, h2, step_tick_none c w h, ih { w with now := w.now + 1 } h]
    apply World.ext' <;> simp
    omega

/-- Ticks that all happen strictly before the pending deadline only advance
the clock: the timer does not fire early. -/
theorem run_ticks_early {σ D : Type} (c : PersistCfg σ D) :
    ∀ (n : Nat) (w : World σ) (dl : Nat), w.pending = some dl →
    w.now + n < dl →
    run (some c) w (ticks n) = { w with now := w.now + n } := by
  intro n
  induction n with
  | zero =>
    intro w dl h hlt
    apply World.ext' <;> simp [run, ticks]
  | succ m ih =>
    intro w dl h hlt
    have h1 : (ticks (m + 1) : List (Event σ)) = Event.tick :: ticks m := by
      simp [ticks, List.replicate_succ]
    have h2 : run (some c) w (Event.tick :: ticks m) =
        run (some c) (step (some c) w .tick) (ticks m) := rfl
    rw [h1, h2, step_tick_early c w dl h (by omega),
      ih { w with now := w.now + 1 } dl h (show w.now + 1 + m < dl by omega)]
    apply World.ext' <;> simp
    omega

/-- Running at least `m ≥ 1` ticks with the timer due `m` from now fires the
save exactly once, at the deadline, with the snapshot read at that moment. -/
theorem run_ticks_fire {σ D : Type} (c : PersistCfg σ D) (n m : Nat)
    (w : World σ) (hp : w.pending = some (w.now + m)) (h1 : 1 ≤ m)
    (h2 : m ≤ n) :
    run (some c) w (ticks n) =
      { w with now := w.now + n, pending := none,
               log := w.log ++ [.write (w.now + m) c.key
                 (c.serialize (c.serializeState w.st))] } := by
  have hsplit : (ticks n : List (Event σ)) =
      ticks (m - 1) ++ (Event.tick :: ticks (n - m)) := by
    have hc : (Event.tick :: ticks (n - m) : List (Event σ)) = ticks (n - m + 1) := by
      simp [ticks, List.replicate_succ]
    rw [hc]
    simp only [ticks, ← List.replicate_add]
    congr 1
    omega
  rw [hsplit, run_append]
  rw [run_ticks_early c (m - 1) w _ hp (by omega)]
  have hm : w.now + (m - 1) + 1 = w.now + m := by omega
  have hstep : step (some c) { w with now := w.now + (m - 1) } Event.tick =
      { w with now := w.now + m, pending := none,
               log := w.log ++ [.write (w.now + m) c.key
                 (c.serialize (c.serializeState w.st))] } := by
    simp only [step, saveState, hm, hp]
    rw [if_pos (by omega)]
  have h3 : run (some c) { w with now := w.now + (m - 1) }
      (Event.tick :: ticks (n - m)) =
      run (some c) (step (some c) { w with now := w.now + (m - 1) } Event.tick)
        (ticks (n - m)) := rfl
  rw [h3, hstep, run_ticks_none c (n - m) _ rfl]
  apply World.ext' <;> simp
  omega

/-- With a nonzero debounce a notification cancels any pending timer and
schedules a fresh full-length one; no write happens at trigger time. -/
theorem step_mutate_debounced {σ D : Type} (c : PersistCfg σ D) (w : World σ)
    (f : σ → σ) (hsub : w.subscribed = true) (hdz : c.debounce ≠ 0) :
    step (some c) w (.mutate f) =
      { w with st := f w.st, pending := some (w.now + c.debounce) } := by
  simp [step, hsub, hdz]

/-- Within one debounce window every mutation retriggers the timer: after
the burst the state holds all mutations, no write has happened yet, and the
timer deadline sits one full window after the last mutation. -/
theorem window_core {σ D : Type} (c : PersistCfg σ D) (d : Nat)
    (hd : c.debounce = d) (hpos : 0 < d) :
    ∀ (parts : List (Nat × (σ → σ))) (w : World σ), w.subscribed = true →
      (∀ g ∈ parts.map Prod.fst, g < d) →
      (w.pending = none ∨ w.pending = some (w.now + d)) →
      run (some c) w
          ((parts.map fun p => ticks p.1 ++ [Event.mutate p.2]).flatten) =
        { w with st := foldMuts parts w.st, now := w.now + gapSum parts,
                 pending := if parts.isEmpty then w.pending
                            else some (w.now + gapSum parts + d) } := by
  intro parts
  induction parts with
  | nil =>
    intro w hsub hg hp
    apply World.ext' <;> simp [run, foldMuts, gapSum]
  | cons pt rest ih =>
    intro w hsub hg hp
    obtain ⟨g, f⟩ := pt
    have hflat : ((((g, f) :: rest).map
        fun p => ticks p.1 ++ [Event.mutate p.2]).flatten : List (Event σ)) =
        (ticks g ++ [Event.mutate f]) ++
          ((rest.map fun p => ticks p.1 ++ [Event.mutate p.2]).flatten) := by
      simp
    have hg0 : g < d := hg g (by simp)
    have hticks : run (some c) w (ticks g) = { w with now := w.now + g } := by
      rcases hp with hp | hp
      · exact run_ticks_none c g w hp
      · exact run_ticks_early c g w _ hp (by omega)
    have hmut : run (some c) { w with now := w.now + g } [Event.mutate f] =
        { w with st := f w.st, now := w.now + g,
                 pending := some (w.now + g + d) } := by
      have hs : run (some c) { w with now := w.now + g } [Event.mutate f] =
          step (some c) { w with now := w.now + g } (.mutate f) := rfl
      rw [hs, step_mutate_debounced c _ f (by simpa using hsub) (by omega)]
      apply World.ext' <;> simp [hd]
    have hrec := ih
      { w with st := f w.st, now := w.now + g, pending := some (w.now + g + d) }
      (by simpa using hsub) (by intro x hx; exact hg x (by simp [hx])) (Or.inr rfl)
    rw [hflat, run_append, run_append, hticks, hmut, hrec]
    cases rest with
    | nil => apply World.ext' <;> simp [foldMuts, gapSum]
    | cons r rs => apply World.ext' <;> simp [foldMuts, gapSum] <;> omega

/-- Claim C3: with `waitMs > 0`, a trigger while a timer is pending cancels
it and starts a new full-length one (first conjunct); hence a burst of
mutations separated by gaps shorter than the window collapses to exactly
one write, at `waitMs` after the last mutation, whose payload is the
snapshot read at execution time and therefore reflects every mutation of
the burst, those after earlier triggers included (second conjunct). -/
theorem c3_debounce_coalesces {σ D : Type} (c : PersistCfg σ D) (d : Nat)
    (hd : c.debounce = d) (hpos : 0 < d) :
    (∀ (w : World σ) (f : σ → σ), w.subscribed = true →
        step (some c) w (.mutate f) =
          { w with st := f w.st, pending := some (w.now + d) }) ∧
    (∀ (parts : List (Nat × (σ → σ))) (w : World σ),
        parts ≠ [] →
        (∀ g ∈ parts.map Prod.fst, g < d) →
        w.subscribed = true → w.pending = none →
        run (some c) w (windowTrace parts d) =
          { w with st := foldMuts parts w.st,
                   now := w.now + gapSum parts + d,
                   pending := none,
                   log := w.log ++ [.write (w.now + gapSum parts + d) c.key
                     (c.serialize (c.serializeState (foldMuts parts w.st)))] }) := by
  constructor
  · intro w f hsub
    rw [step_mutate_debounced c w f hsub (by omega), hd]
  · intro parts w hne hg hsub hp
    rw [windowTrace, run_append,
      window_core c d hd hpos parts w hsub hg (Or.inl hp)]
    have hempty : parts.isEmpty = false := by
      cases parts
      · exact absurd rfl hne
      · rfl
    rw [hempty]
    simp only [Bool.false_eq_true, if_false]
    rw [run_ticks_fire c d d _ rfl (by omega) (by omega)]

/-- Witness for C3: a burst of two mutations one tick apart inside a 2-tick
window collapses to one write two ticks after the second mutation, carrying
both mutations. -/
theorem c3_debounce_coalesces_witness :
    run (some cfgDebounced) wSub
        (windowTrace [(0, fun n => n + 1), (1, fun n => n * 10)] 2) =
      { wSub with
          st := foldMuts [(0, fun n => n + 1), (1, fun n => n * 10)] wSub.st,
          now := wSub.now + gapSum [(0, fun n => n + 1), (1, fun n => n * 10)] + 2,
          pending := none,
          log := wSub.log ++ [.write
            (wSub.now + gapSum [(0, fun n => n + 1), (1, fun n => n * 10)] + 2)
            cfgDebounced.key (cfgDebounced.serialize (cfgDebounced.serializeState
              (foldMuts [(0, fun n => n + 1), (1, fun n => n * 10)] wSub.st)))] } :=
  (c3_debounce_coalesces cfgDebounced 2 rfl (by decide)).2
    [(0, fun n => n + 1), (1, fun n => n * 10)] wSub (by simp)
    (by intro g hg; fin_cases hg <;> omega) rfl rfl

end PiniaSimplePersist
